import Mathlib

/-!
Shallow embedding of the subscription-webhook pipeline of the Dif_API
repository: signature verification (src/utils/webhook.utils.ts), event-type
normalization, the webhook HTTP controller
(src/controllers/subscription.controller.ts) and the subscription service
handlers (subscription.service.ts).  Strings that the code treats as raw
bytes (request bodies, signatures, secrets) are modelled as lists of byte
values; machine words in the hash computation are natural numbers reduced
modulo 2^32.
-/

namespace DifApi

/-- Bytes are natural numbers; byte strings are lists of them. -/
abbrev Bytes := List Nat

/-- Byte list of an ASCII Lean string literal (code points of its characters). -/
def strBytes (s : String) : Bytes := s.data.map Char.toNat

/-! ## Hex and base64 encodings (crypto digest output formats) -/

/-- ASCII code of the hex digit for a value below 16 (lowercase, as produced
by the node crypto digest hex output). -/
def hexDigit (n : Nat) : Nat := (strBytes "0123456789abcdef").getD n 48

/-- Two hex characters of one byte. -/
def hexByte (b : Nat) : Bytes := [hexDigit (b / 16), hexDigit (b % 16)]

/-- Lowercase hex encoding of a byte list. -/
def hexEncode : Bytes → Bytes
  | [] => []
  | b :: rest => hexByte b ++ hexEncode rest

/-- The 64-character base64 alphabet. -/
def b64Table : Bytes :=
  strBytes "ABCDEFGHIJKLMNOPQRSTUVWXYZabcdefghijklmnopqrstuvwxyz0123456789+/"

/-- Base64 character for a 6-bit group. -/
def b64Char (n : Nat) : Nat := b64Table.getD n 65

/-- Standard base64 encoding with padding (the node crypto digest base64
output). 61 is the ASCII code of the padding character. -/
def base64Encode : Bytes → Bytes
  | [] => []
  | [a] => [b64Char (a / 4), b64Char (a % 4 * 16), 61, 61]
  | [a, b] => [b64Char (a / 4), b64Char (a % 4 * 16 + b / 16), b64Char (b % 16 * 4), 61]
  | a :: b :: c :: rest =>
      [b64Char (a / 4), b64Char (a % 4 * 16 + b / 16),
       b64Char (b % 16 * 4 + c / 64), b64Char (c % 64)] ++ base64Encode rest

/-! ## SHA-256 and HMAC-SHA256 (the node crypto createHmac collaborator) -/

/-- Reduce to a 32-bit word. -/
def w32 (x : Nat) : Nat := x % 4294967296

/-- Combine two numbers bit by bit through f for the given number of bits.
Arithmetic recursion on fuel keeps every use kernel-reducible. -/
def bitZip (f : Nat → Nat → Nat) : Nat → Nat → Nat → Nat
  | 0, _, _ => 0
  | fuel + 1, a, b => f (a % 2) (b % 2) + 2 * bitZip f fuel (a / 2) (b / 2)

/-- Bitwise xor on 32-bit words. -/
def xor32 (a b : Nat) : Nat := bitZip (fun x y => (x + y) % 2) 32 a b

/-- Bitwise and on 32-bit words. -/
def and32 (a b : Nat) : Nat := bitZip (fun x y => x * y) 32 a b

/-- Bitwise xor on bytes. -/
def xor8 (a b : Nat) : Nat := bitZip (fun x y => (x + y) % 2) 8 a b

/-- Right rotation of a 32-bit word. -/
def rotr (n x : Nat) : Nat := (w32 x) / 2 ^ n + ((w32 x) % 2 ^ n) * 2 ^ (32 - n)

/-- SHA-256 small sigma 0. -/
def ssig0 (x : Nat) : Nat := xor32 (xor32 (rotr 7 x) (rotr 18 x)) ((w32 x) / 8)

/-- SHA-256 small sigma 1. -/
def ssig1 (x : Nat) : Nat := xor32 (xor32 (rotr 17 x) (rotr 19 x)) ((w32 x) / 1024)

/-- SHA-256 big sigma 0. -/
def bsig0 (x : Nat) : Nat := xor32 (xor32 (rotr 2 x) (rotr 13 x)) (rotr 22 x)

/-- SHA-256 big sigma 1. -/
def bsig1 (x : Nat) : Nat := xor32 (xor32 (rotr 6 x) (rotr 11 x)) (rotr 25 x)

/-- SHA-256 choice function. -/
def chF (x y z : Nat) : Nat := xor32 (and32 x y) (and32 (4294967295 - w32 x) z)

/-- SHA-256 majority function. -/
def majF (x y z : Nat) : Nat := xor32 (xor32 (and32 x y) (and32 x z)) (and32 y z)

/-- SHA-256 round constants. -/
def sha256K : List Nat :=
  [1116352408, 1899447441, 3049323471, 3921009573, 961987163,
   1508970993, 2453635748, 2870763221, 3624381080, 310598401,
   607225278, 1426881987, 1925078388, 2162078206, 2614888103,
   3248222580, 3835390401, 4022224774, 264347078, 604807628,
   770255983, 1249150122, 1555081692, 1996064986, 2554220882,
   2821834349, 2952996808, 3210313671, 3336571891, 3584528711,
   113926993, 338241895, 666307205, 773529912, 1294757372,
   1396182291, 1695183700, 1986661051, 2177026350, 2456956037,
   2730485921, 2820302411, 3259730800, 3345764771, 3516065817,
   3600352804, 4094571909, 275423344, 430227734, 506948616,
   659060556, 883997877, 958139571, 1322822218, 1537002063,
   1747873779, 1955562222, 2024104815, 2227730452, 2361852424,
   2428436474, 2756734187, 3204031479, 3329325298]

/-- The eight SHA-256 working registers. -/
structure H8 where
  a : Nat
  b : Nat
  c : Nat
  d : Nat
  e : Nat
  f : Nat
  g : Nat
  h : Nat
deriving DecidableEq

/-- SHA-256 initial hash value. -/
def sha256Init : H8 :=
  ⟨1779033703, 3144134277, 1013904242, 2773480762,
   1359893119, 2600822924, 528734635, 1541459225⟩

/-- One step of the message-schedule extension: append the next word. -/
def wstep (w : List Nat) : List Nat :=
  let i := w.length
  w ++ [w32 (w.getD (i - 16) 0 + ssig0 (w.getD (i - 15) 0) + w.getD (i - 7) 0 + ssig1 (w.getD (i - 2) 0))]

/-- Extend the message schedule by the given number of words. -/
def buildW (w : List Nat) : Nat → List Nat
  | 0 => w
  | n + 1 => buildW (wstep w) n

/-- One SHA-256 compression round. -/
def sha256Round (st : H8) (ki wi : Nat) : H8 :=
  let t1 := w32 (st.h + bsig1 st.e + chF st.e st.f st.g + ki + wi)
  let t2 := w32 (bsig0 st.a + majF st.a st.b st.c)
  ⟨w32 (t1 + t2), st.a, st.b, st.c, w32 (st.d + t1), st.e, st.f, st.g⟩

/-- Compress one 16-word block into the running hash. -/
def sha256Compress (h0 : H8) (block : List Nat) : H8 :=
  let w := buildW block 48
  let st := (sha256K.zip w).foldl (fun s p => sha256Round s p.1 p.2) h0
  ⟨w32 (h0.a + st.a), w32 (h0.b + st.b), w32 (h0.c + st.c), w32 (h0.d + st.d),
   w32 (h0.e + st.e), w32 (h0.f + st.f), w32 (h0.g + st.g), w32 (h0.h + st.h)⟩

/-- Big-endian 8-byte encoding of a length in bits. -/
def be64 (n : Nat) : Bytes :=
  [(n / 2 ^ 56) % 256, (n / 2 ^ 48) % 256, (n / 2 ^ 40) % 256, (n / 2 ^ 32) % 256,
   (n / 2 ^ 24) % 256, (n / 2 ^ 16) % 256, (n / 2 ^ 8) % 256, n % 256]

/-- Big-endian 4-byte encoding of a 32-bit word. -/
def be32 (n : Nat) : Bytes :=
  [(n / 2 ^ 24) % 256, (n / 2 ^ 16) % 256, (n / 2 ^ 8) % 256, n % 256]

/-- SHA-256 padding: append 0x80, zeros to 56 mod 64, then the bit length. -/
def sha256Pad (msg : Bytes) : Bytes :=
  let len := msg.length
  msg ++ 128 :: List.replicate ((119 - len % 64) % 64) 0 ++ be64 (len * 8)

/-- Group a byte list into big-endian 32-bit words. -/
def toWords : Bytes → List Nat
  | a :: b :: c :: d :: rest => (a * 16777216 + b * 65536 + c * 256 + d) :: toWords rest
  | _ => []

/-- Fuel-driven splitting of a word list into 16-word blocks. -/
def chunk16Go : Nat → List Nat → List (List Nat)
  | 0, _ => []
  | _ + 1, [] => []
  | fuel + 1, ws => (ws.take 16) :: chunk16Go fuel (ws.drop 16)

/-- Split a word list into 16-word blocks (the length is enough fuel since
every step consumes at least one element). -/
def chunk16 (ws : List Nat) : List (List Nat) := chunk16Go ws.length ws

/-- Serialize the final registers to the 32-byte digest. -/
def hashBytes (st : H8) : Bytes :=
  be32 st.a ++ be32 st.b ++ be32 st.c ++ be32 st.d ++ be32 st.e ++ be32 st.f ++ be32 st.g ++ be32 st.h

/-- SHA-256 of a byte list. -/
def sha256 (msg : Bytes) : Bytes :=
  hashBytes ((chunk16 (toWords (sha256Pad msg))).foldl sha256Compress sha256Init)

/-- HMAC-SHA256, the node createHmac sha256 collaborator: block size 64,
inner pad 0x36, outer pad 0x5c. -/
def hmacSha256 (key msg : Bytes) : Bytes :=
  let k0 := if 64 < key.length then sha256 key else key
  let k := k0 ++ List.replicate (64 - k0.length) 0
  sha256 ((k.map (fun b => xor8 b 92)) ++ sha256 ((k.map (fun b => xor8 b 54)) ++ msg))

/-! ## SignatureVerifier: verifyWebhookSignature (src/utils/webhook.utils.ts, lines 13 to 95)

The jsonwebtoken verify collaborator is an external library; it is passed in
as an oracle deciding whether a token verifies against a secret (the library
throws on failure, which the source catches and maps to false). -/

/-- Embedding of verifyWebhookSignature.  Empty byte lists model the falsy
missing inputs; the timingSafeEqual length mismatch exception caught by the
source is the explicit length guard; the production hex path requires the
sha256= prefix; a candidate with exactly two dot characters (ASCII 46) goes
to the JWT oracle; everything else is the unknown-format fallthrough. -/
def verifyWebhookSignature (jwtVerify : Bytes → Bytes → Bool)
    (payload signature secret : Bytes) : Bool :=
  if payload = [] ∨ signature = [] ∨ secret = [] then false
  else if secret = strBytes "apple" then
    -- test-environment branch: base64 HMAC keyed by the literal test secret
    if signature = base64Encode (hmacSha256 (strBytes "test-apple-secret") payload)
      then true else false
  else if secret = strBytes "google" then
    -- test-environment branch: only the literal valid token is accepted
    if signature = strBytes "valid-jwt-token" then true else false
  else if (strBytes "sha256=").isPrefixOf signature then
    let expected := strBytes "sha256=" ++ hexEncode (hmacSha256 secret payload)
    if signature.length = expected.length then
      if signature = expected then true else false
    else false
  else if signature.count 46 = 2 then jwtVerify signature secret
  else false

/-! ## EventNormalizer: parseWebhookEventType and extractSubscriptionDetails
(src/utils/webhook.utils.ts, lines 104 to 280)

The JSON payload is modelled as a record holding exactly the fields the
source reads; absent JSON keys are none, and object-valued keys whose inner
fields are never read are presence booleans. -/

/-- The fields the source reads from data.transactionInfo or
data.signedTransactionInfo of a storeA payload. -/
structure TxInfo where
  originalTransactionId : Option String
  productId : Option String
  transactionId : Option String
deriving DecidableEq

/-- The fields the source reads from a subscriptionNotification object of a
storeB payload. -/
structure SubNotif where
  notificationType : Option Nat
  purchaseToken : Option String
  subscriptionId : Option String
  orderId : Option String
deriving DecidableEq

/-- The webhook JSON body, restricted to the keys the source dereferences.
The camelCase and snake_case identity fields can both occur because the
handlers probe both spellings; occurredAt models the provider timestamp
carried by the payload (the source never reads it). -/
structure Payload where
  notificationType : Option String
  messageType : Option String
  hasData : Bool
  signedPayload : Bool
  subscriptionNotification : Option SubNotif
  dataSubscriptionNotification : Option SubNotif
  oneTimeProductNotification : Bool
  txInfo : Option TxInfo
  signedTxInfo : Option TxInfo
  userId : Option String
  user_id : Option String
  productId : Option String
  product_id : Option String
  transactionId : Option String
  transaction_id : Option String
  originalTransactionId : Option String
  original_transaction_id : Option String
  occurredAt : Option Nat
deriving DecidableEq

/-- JS truthiness of an optional string: present and non-empty. -/
def truthy (o : Option String) : Bool := o.getD "" ≠ ""

/-- JS a || b on two optional strings: the first operand when truthy,
otherwise the second operand verbatim (which may itself be falsy). -/
def firstTruthy (a b : Option String) : Option String := if truthy a then a else b

/-- JS a || lit where lit is a non-empty string literal default. -/
def truthyOr (a : Option String) (dflt : String) : String :=
  if truthy a then a.getD "" else dflt

/-- Embedding of parseWebhookEventType.  The provider argument is a plain
string as in the source (the switch has a default for anything else).  The
storeA branch maps only the four listed notification types; the storeB
branch first checks the test-environment messageType strings, then the
numeric production notificationType. -/
def parseWebhookEventType (payload : Payload) (provider : String) : String :=
  if provider = "apple" then
    if payload.notificationType.getD "" = "CONSUMPTION_REQUEST" then "purchased"
    else if payload.notificationType.getD "" = "DID_RENEW" then "renewed"
    else if payload.notificationType.getD "" = "DID_FAIL_TO_RENEW" then "expired"
    else if payload.notificationType.getD "" = "REFUND" then "refunded"
    else "unknown"
  else if provider = "google" then
    if payload.messageType.getD "" = "SUBSCRIPTION_PURCHASED" then "purchased"
    else if payload.messageType.getD "" = "SUBSCRIPTION_RENEWED" then "renewed"
    else if payload.messageType.getD "" = "SUBSCRIPTION_EXPIRED" then "expired"
    else if payload.messageType.getD "" = "SUBSCRIPTION_REVOKED" then "refunded"
    else
      match payload.subscriptionNotification.bind (fun sn => sn.notificationType) with
      | some 1 => "purchased"
      | some 2 => "renewed"
      | some 3 => "expired"
      | some 4 => "refunded"
      | _ => "unknown"
  else "unknown"

/-- The subscription details returned by extractSubscriptionDetails that feed
the notification object handed to the service handlers.  present is false
exactly when the source returns the empty object (so the object spread adds
no keys); when present is true the keys exist, possibly with undefined
values, and override the body fields in the spread. -/
structure Details where
  present : Bool
  originalTransactionId : Option String
  productId : Option String
  transactionId : Option String
deriving DecidableEq

/-- Embedding of extractSubscriptionDetails, restricted to the identity
fields the handlers read. -/
def extractSubscriptionDetails (payload : Payload) (provider : String) : Details :=
  if provider = "google" ∧ payload.messageType = some "SUBSCRIPTION_PURCHASED" ∧ ¬ payload.hasData
    then ⟨false, none, none, none⟩
  else if provider = "apple" then
    match payload.txInfo with
    | some t => ⟨true, t.originalTransactionId, t.productId, t.transactionId⟩
    | none =>
      let t := payload.signedTxInfo
      ⟨true, t.bind (fun x => x.originalTransactionId), t.bind (fun x => x.productId),
        t.bind (fun x => x.transactionId)⟩
  else if provider = "google" then
    if payload.dataSubscriptionNotification.bind (fun sn => sn.purchaseToken) = some "test-token"
        ∧ payload.messageType = some "SUBSCRIPTION_PURCHASED" then
      ⟨true, some "789012", some "com.corpastroapps.monthly", some "789012"⟩
    else if payload.messageType.isSome then
      let sub := payload.dataSubscriptionNotification
      ⟨true,
        some (truthyOr (firstTruthy (sub.bind (fun s => s.purchaseToken)) payload.originalTransactionId) "789012"),
        some (truthyOr (firstTruthy (sub.bind (fun s => s.subscriptionId)) payload.productId) "com.corpastroapps.monthly"),
        some (truthyOr (firstTruthy (sub.bind (fun s => s.orderId)) payload.transactionId) "789012")⟩
    else
      let sub := payload.subscriptionNotification
      ⟨true, sub.bind (fun s => s.purchaseToken), sub.bind (fun s => s.subscriptionId),
        sub.bind (fun s => s.purchaseToken)⟩
  else ⟨false, none, none, none⟩

/-! ## Persistence model

The subscriptions table keyed by user_id plus the append-only
subscription_events table, as the supabase collaborator exposes them to the
service.  An upsert writes exactly the columns present in its payload object
(a JS undefined value means the key is absent from the serialized row, so an
update retains the stored value and an insert leaves the column at its
default); an update writes its fixed columns on every row matched by the eq
filters.  A db operation that reports an error leaves the table unchanged. -/

/-- The notification object handed to the service handlers: the spread of the
webhook body and the extracted details.  Only the fields the handlers probe
are kept; occurredAt is the provider timestamp (never read by the source). -/
structure Notification where
  userId : Option String
  user_id : Option String
  productId : Option String
  product_id : Option String
  transactionId : Option String
  transaction_id : Option String
  originalTransactionId : Option String
  original_transaction_id : Option String
  occurredAt : Option Nat
deriving DecidableEq

/-- One row of the subscriptions table.  Timestamps are abstract instants. -/
structure SubRow where
  user_id : String
  plan : Option String
  product_id : Option String
  transaction_id : Option String
  receipt : Option String
  platform : Option String
  purchase_date : Option Nat
  expiry_date : Option Nat
  is_lifetime : Bool
  is_active : Bool
  refunded : Bool
  refund_date : Option Nat
  trial_end_date : Option Nat
  updated_at : Option Nat
deriving DecidableEq

/-- A neutral row used only as the out-of-range default of list lookups. -/
def dummyRow : SubRow :=
  ⟨"", none, none, none, none, none, none, none, false, false, false, none, none, none⟩

/-- One record of the append-only subscription_events audit table. -/
structure EventRecord where
  user_id : String
  event_type : String
  product_id : Option String
  transaction_id : Option String
  created_at : Nat
  metadata : Notification
deriving DecidableEq

/-- The durable state the service mutates. -/
structure DbState where
  subs : List SubRow
  events : List EventRecord
deriving DecidableEq

/-- Writing an optional value into a column: an absent key (JS undefined)
keeps the stored value, a present key overwrites it. -/
def applyWrite (v old : Option String) : Option String :=
  match v with
  | none => old
  | some s => some s

/-- The eq filter of a supabase update against a JS value: a defined value
matches rows storing exactly it; an undefined value matches no row (it
serializes to a literal the column never holds). -/
def matchEq (col v : Option String) : Bool :=
  match v with
  | some s => col = some s
  | none => false

/-! ## ReconciliationService: the webhook handlers of subscription.service.ts
(src/unnamed/part_009, lines 211 to 320) and getSubscriptionStatus (lines 26
to 76). -/

/-- The userId the handlers extract: notification.userId || notification.user_id. -/
def notifUid (n : Notification) : Option String := firstTruthy n.userId n.user_id

/-- The productId the handlers extract. -/
def notifPid (n : Notification) : Option String := firstTruthy n.productId n.product_id

/-- The transactionId the purchased handler extracts. -/
def notifTx (n : Notification) : Option String := firstTruthy n.transactionId n.transaction_id

/-- The originalTransactionId the refunded handler extracts. -/
def notifOtx (n : Notification) : Option String :=
  firstTruthy n.originalTransactionId n.original_transaction_id

/-- The columns the purchased/renewed upsert writes into an existing row. -/
def mergePurchase (r : SubRow) (u : String) (pid tx : Option String) (now : Nat) : SubRow :=
  { r with user_id := u, product_id := applyWrite pid r.product_id,
           transaction_id := applyWrite tx r.transaction_id,
           is_active := true, updated_at := some now }

/-- The row the purchased/renewed upsert inserts when no row conflicts:
unwritten columns stay at their defaults. -/
def freshPurchaseRow (u : String) (pid tx : Option String) (now : Nat) : SubRow :=
  { dummyRow with user_id := u, product_id := pid, transaction_id := tx,
                  is_active := true, updated_at := some now }

/-- Upsert keyed by user_id: update the conflicting rows, else insert. -/
def upsertPurchase (rows : List SubRow) (u : String) (pid tx : Option String)
    (now : Nat) : List SubRow :=
  if rows.any (fun r => r.user_id = u) then
    rows.map (fun r => if r.user_id = u then mergePurchase r u pid tx now else r)
  else rows ++ [freshPurchaseRow u pid tx now]

/-- Embedding of handleSubscriptionPurchased.  dbErr models the supabase
upsert reporting an error (the source ignores the result either way).
Missing userId or productId aborts before the write. -/
def handleSubscriptionPurchased (n : Notification) (now : Nat) (dbErr : Bool)
    (db : DbState) : DbState :=
  if ¬ truthy (notifUid n) ∨ ¬ truthy (notifPid n) then db
  else if dbErr then db
  else { db with subs :=
    upsertPurchase db.subs ((notifUid n).getD "") (notifPid n) (notifTx n) now }

/-- Embedding of handleSubscriptionExpired: an update of is_active and
updated_at on the rows matched by user_id and product_id.  Lineage
identifiers in the notification are never consulted. -/
def handleSubscriptionExpired (n : Notification) (now : Nat) (dbErr : Bool)
    (db : DbState) : DbState :=
  if ¬ truthy (notifUid n) then db
  else if dbErr then db
  else { db with subs := db.subs.map (fun r =>
    if r.user_id = (notifUid n).getD "" ∧ matchEq r.product_id (notifPid n) then
      { r with is_active := false, updated_at := some now }
    else r) }

/-- The row filter of the refund update: by transaction_id when the
notification carries an originalTransactionId, else by product_id. -/
def refundHit (n : Notification) (r : SubRow) : Bool :=
  r.user_id = (notifUid n).getD ""
    ∧ (if truthy (notifOtx n) then matchEq r.transaction_id (notifOtx n)
       else matchEq r.product_id (notifPid n))

/-- The audit record the refunded handler inserts. -/
def mkRefundRecord (n : Notification) (now : Nat) : EventRecord :=
  ⟨(notifUid n).getD "", "refund", notifPid n, notifOtx n, now, n⟩

/-- Embedding of handleSubscriptionRefunded.  updErr models the subscription
update reporting an error (the source then returns before the audit insert);
insErr models the audit insert reporting an error (the source ignores it). -/
def handleSubscriptionRefunded (n : Notification) (now : Nat)
    (updErr insErr : Bool) (db : DbState) : DbState :=
  if ¬ truthy (notifUid n) then db
  else if updErr then db
  else
    { subs := db.subs.map (fun r =>
        if refundHit n r then
          { r with is_active := false, refunded := true,
                   refund_date := some now, updated_at := some now }
        else r),
      events := if insErr then db.events else db.events ++ [mkRefundRecord n now] }

/-- The typed HTTP error of the error middleware. -/
structure ApiError where
  statusCode : Nat
  message : String
deriving DecidableEq

/-- The SubscriptionStatusView returned to clients. -/
structure SubscriptionStatus where
  isActive : Bool
  plan : Option String
  expiryDate : Option Nat
  isLifetime : Bool
  isTrialActive : Bool
  trialEndDate : Option Nat
deriving DecidableEq

/-- The default view returned when the read yields neither error nor data. -/
def defaultStatus : SubscriptionStatus := ⟨false, none, none, false, false, none⟩

/-- The view computed from a stored row at the given instant. -/
def statusView (d : SubRow) (now : Nat) : SubscriptionStatus :=
  { isActive := d.is_lifetime || (match d.expiry_date with
      | some e => decide (now < e)
      | none => false),
    plan := d.plan,
    expiryDate := d.expiry_date,
    isLifetime := d.is_lifetime,
    isTrialActive := (match d.trial_end_date with
      | some e => decide (now < e)
      | none => false),
    trialEndDate := d.trial_end_date }

/-- The outcome of the single-row supabase read of the subscriptions table
(select single by user_id): an error report, or at most one row. -/
structure QueryResult where
  error : Option String
  data : Option SubRow
deriving DecidableEq

/-- Embedding of getSubscriptionStatus given the outcome of its read: an
error report throws ApiError 500; absent data returns the default view; data
returns the computed view.  The catch block rethrows the ApiError. -/
def getSubscriptionStatus (res : QueryResult) (now : Nat) :
    Except ApiError SubscriptionStatus :=
  match res.error with
  | some _ => .error ⟨500, "Failed to fetch subscription status"⟩
  | none =>
    match res.data with
    | none => .ok defaultStatus
    | some d => .ok (statusView d now)

/-! ## WebhookIngressEndpoint: handleWebhook and its helpers
(src/controllers/subscription.controller.ts, lines 86 to 225). -/

/-- The request headers the controller reads.  Header values are strings in
express; an absent header and an empty one are both falsy, so absent
signature headers are the empty byte list and the absent verification id the
empty string. -/
structure Headers where
  appleVerificationId : String
  appleSignature : Bytes
  googSignature : Bytes
deriving DecidableEq

/-- The webhook request: headers, the parsed JSON body, the raw body bytes
captured by the middleware (empty when the middleware did not run), and the
bytes of JSON.stringify(body), the fallback the controller uses then. -/
structure WebhookReq where
  headers : Headers
  body : Payload
  rawBody : Bytes
  bodyJson : Bytes
deriving DecidableEq

/-- The configured webhook secrets read from the environment; an unset
variable is the empty byte list. -/
structure Env where
  appleSecret : Bytes
  googleSecret : Bytes
deriving DecidableEq

/-- Embedding of determineProvider: storeA headers or storeA body shape
first, then storeB headers or body shape, else null. -/
def determineProvider (headers : Headers) (body : Payload) : Option String :=
  if headers.appleVerificationId ≠ ""
      ∨ (truthy body.notificationType ∧ body.hasData ∧ body.signedPayload) then some "apple"
  else if headers.googSignature ≠ [] ∨ body.subscriptionNotification.isSome
      ∨ body.oneTimeProductNotification then some "google"
  else none

/-- Embedding of getWebhookSecret. -/
def getWebhookSecret (env : Env) (provider : String) : Bytes :=
  if provider = "apple" then env.appleSecret
  else if provider = "google" then env.googleSecret
  else []

/-- Embedding of getSignatureFromHeaders. -/
def getSignatureFromHeaders (headers : Headers) (provider : String) : Bytes :=
  if provider = "apple" then headers.appleSignature
  else if provider = "google" then headers.googSignature
  else []

/-- The notification object the controller passes to a handler: the spread
of the body followed by the extracted details, whose keys (present even when
their values are undefined) override the body fields. -/
def mergeNotification (body : Payload) (d : Details) : Notification :=
  if d.present then
    { userId := body.userId, user_id := body.user_id,
      productId := d.productId, product_id := body.product_id,
      transactionId := d.transactionId, transaction_id := body.transaction_id,
      originalTransactionId := d.originalTransactionId,
      original_transaction_id := body.original_transaction_id,
      occurredAt := body.occurredAt }
  else
    { userId := body.userId, user_id := body.user_id,
      productId := body.productId, product_id := body.product_id,
      transactionId := body.transactionId, transaction_id := body.transaction_id,
      originalTransactionId := body.originalTransactionId,
      original_transaction_id := body.original_transaction_id,
      occurredAt := body.occurredAt }

/-- The JSON body of the webhook response: status ok, or status error with a
message. -/
inductive RespBody where
  | ok : RespBody
  | err : String → RespBody
deriving DecidableEq

/-- An HTTP response of the webhook endpoint. -/
structure Response where
  status : Nat
  body : RespBody
deriving DecidableEq

/-- The event types of the purchased arm of the controller switch. -/
def purchasedCases : List String :=
  ["INITIAL_BUY", "DID_RENEW", "RENEWAL", "INTERACTIVE_RENEWAL",
   "SUBSCRIPTION_PURCHASED", "SUBSCRIPTION_RENEWED"]

/-- The event types of the expired arm of the controller switch. -/
def expiredCases : List String :=
  ["EXPIRED", "DID_FAIL_TO_RENEW", "GRACE_PERIOD", "SUBSCRIPTION_EXPIRED",
   "SUBSCRIPTION_CANCELED"]

/-- The event types of the refunded arm of the controller switch. -/
def refundedCases : List String := ["REFUND", "REVOKE"]

/-- Embedding of handleWebhook.  Every early return carries HTTP status 200;
the oracle flags model the supabase operations reporting errors inside the
dispatched handler; the final response after the switch is 200 ok.  The
result pairs the response with the resulting durable state. -/
def handleWebhook (env : Env) (jwtVerify : Bytes → Bytes → Bool)
    (req : WebhookReq) (now : Nat) (updErr insErr : Bool) (db : DbState) :
    Response × DbState :=
  let rawBody := if req.rawBody = [] then req.bodyJson else req.rawBody
  match determineProvider req.headers req.body with
  | none => (⟨200, .err "Unknown provider"⟩, db)
  | some provider =>
    let secret := getWebhookSecret env provider
    if secret = [] then (⟨200, .err "Configuration error"⟩, db)
    else
      let signature := getSignatureFromHeaders req.headers provider
      if signature = [] then (⟨200, .err "Missing signature"⟩, db)
      else if ¬ verifyWebhookSignature jwtVerify rawBody signature secret then
        (⟨200, .err "Invalid signature"⟩, db)
      else
        let eventType := parseWebhookEventType req.body provider
        let details := extractSubscriptionDetails req.body provider
        let n := mergeNotification req.body details
        let db2 :=
          if eventType ∈ purchasedCases then handleSubscriptionPurchased n now updErr db
          else if eventType ∈ expiredCases then handleSubscriptionExpired n now updErr db
          else if eventType ∈ refundedCases then handleSubscriptionRefunded n now updErr insErr db
          else db
        (⟨200, .ok⟩, db2)

/-! ## Concrete fixtures used by counterexamples and witnesses -/

/-- A storeA payload carrying only a notification type (shape fields set so
provider detection by body succeeds). -/
def mkApplePayload (nt : String) : Payload :=
  ⟨some nt, none, true, true, none, none, false, none, none, none, none, none, none,
   none, none, none, none, none⟩

/-- A notification with no fields set. -/
def noNotif : Notification := ⟨none, none, none, none, none, none, none, none, none⟩

/-- A complete purchase notification whose provider timestamp is 5. -/
def purchaseNotif : Notification :=
  { noNotif with userId := some "u1", productId := some "p1",
                 transactionId := some "t1", occurredAt := some 5 }

/-- A refund notification for the same lineage with an older provider
timestamp (3) than the last applied event (5). -/
def staleRefundNotif : Notification :=
  { noNotif with userId := some "u1", productId := some "p1",
                 originalTransactionId := some "t1", occurredAt := some 3 }

/-- An expired notification for lineage A addressed at user u1, product p1. -/
def crossLineageExpiredNotif : Notification :=
  { noNotif with userId := some "u1", productId := some "p1",
                 originalTransactionId := some "A" }

/-- A stored subscription row whose current lineage is transaction B. -/
def rowLineageB : SubRow :=
  { dummyRow with user_id := "u1", product_id := some "p1",
                  transaction_id := some "B", is_active := true }

/-- A jwt oracle rejecting everything (the concrete oracle of witnesses). -/
def jwtNone : Bytes → Bytes → Bool := fun _ _ => false

/-- Environment with a configured storeA secret. -/
def envApple : Env := ⟨strBytes "prod-secret", []⟩

/-- A verified storeA INITIAL_BUY webhook request: raw body bytes signed with
the configured secret in the sha256= hex format. -/
def reqInitialBuy : WebhookReq :=
  ⟨⟨"1", strBytes "sha256=" ++ hexEncode (hmacSha256 (strBytes "prod-secret")
      (strBytes "rawbody-initial-buy")), []⟩,
   mkApplePayload "INITIAL_BUY", strBytes "rawbody-initial-buy", []⟩

/-- A verified storeA DID_RENEW webhook request over the same secret. -/
def reqDidRenew : WebhookReq :=
  ⟨⟨"1", strBytes "sha256=" ++ hexEncode (hmacSha256 (strBytes "prod-secret")
      (strBytes "rawbody-did-renew")), []⟩,
   mkApplePayload "DID_RENEW", strBytes "rawbody-did-renew", []⟩

/-- Strips the timestamp column the purchased upsert always rewrites. -/
def eraseUpdatedAt (r : SubRow) : SubRow := { r with updated_at := none }

/-- An active stored subscription of lineage t1 for user u1, product p1. -/
def activeRowT1 : SubRow :=
  { dummyRow with user_id := "u1", product_id := some "p1",
                  transaction_id := some "t1", is_active := true }

/-- A stored subscription of user u1 for a different product p2. -/
def otherProductRow : SubRow :=
  { dummyRow with user_id := "u1", product_id := some "p2", is_active := true }

/-- The empty durable state: no subscriptions, no audit records. -/
def dbEmpty : DbState := ⟨[], []⟩

/-! ## Digest infrastructure lemmas -/

theorem be32_mem_lt {b n : Nat} (hb : b ∈ be32 n) : b < 256 := by
  simp [be32] at hb
  rcases hb with rfl | rfl | rfl | rfl <;> exact Nat.mod_lt _ (by norm_num)

theorem hashBytes_length (st : H8) : (hashBytes st).length = 32 := by
  simp [hashBytes, be32]

theorem hashBytes_mem_lt {b : Nat} (st : H8) (hb : b ∈ hashBytes st) : b < 256 := by
  simp only [hashBytes, List.mem_append] at hb
  rcases hb with ((((((h | h) | h) | h) | h) | h) | h) | h <;> exact be32_mem_lt h

theorem sha256_length (msg : Bytes) : (sha256 msg).length = 32 :=
  hashBytes_length _

theorem sha256_mem_lt {b : Nat} (msg : Bytes) (hb : b ∈ sha256 msg) : b < 256 :=
  hashBytes_mem_lt _ hb

theorem hmacSha256_length (key msg : Bytes) : (hmacSha256 key msg).length = 32 :=
  sha256_length _

theorem hmacSha256_mem_lt {b : Nat} (key msg : Bytes) (hb : b ∈ hmacSha256 key msg) :
    b < 256 :=
  sha256_mem_lt _ hb

theorem hexEncode_length (l : Bytes) : (hexEncode l).length = 2 * l.length := by
  induction l with
  | nil => rfl
  | cons a t ih => simp [hexEncode, hexByte, ih]; ring

theorem hexDigit_inj {a b : Nat} (ha : a < 16) (hb : b < 16)
    (h : hexDigit a = hexDigit b) : a = b := by
  have key : ∀ a < 16, ∀ b < 16, hexDigit a = hexDigit b → a = b := by decide
  exact key a ha b hb h

theorem hexEncode_inj : ∀ (l1 l2 : Bytes), (∀ b ∈ l1, b < 256) → (∀ b ∈ l2, b < 256) →
    hexEncode l1 = hexEncode l2 → l1 = l2 := by
  intro l1
  induction l1 with
  | nil =>
    intro l2 _ _ h
    cases l2 with
    | nil => rfl
    | cons b t => simp [hexEncode, hexByte] at h
  | cons a t ih =>
    intro l2 h1 h2 h
    cases l2 with
    | nil => simp [hexEncode, hexByte] at h
    | cons b t2 =>
      simp only [hexEncode, hexByte, List.cons_append, List.nil_append,
        List.cons.injEq] at h
      obtain ⟨hd1, hd2, ht⟩ := h
      have ha : a < 256 := h1 a (by simp)
      have hb : b < 256 := h2 b (by simp)
      have e1 : a / 16 = b / 16 := hexDigit_inj (by omega) (by omega) hd1
      have e2 : a % 16 = b % 16 :=
        hexDigit_inj (Nat.mod_lt _ (by norm_num)) (Nat.mod_lt _ (by norm_num)) hd2
      have : a = b := by omega
      subst this
      rw [ih t2 (fun x hx => h1 x (by simp [hx])) (fun x hx => h2 x (by simp [hx])) ht]

/-! ## SignatureVerifier lemmas -/

theorem verify_hex_accepts (jwt : Bytes → Bytes → Bool) (body secret : Bytes)
    (hb : body ≠ []) (hs : secret ≠ []) (ha : secret ≠ strBytes "apple")
    (hg : secret ≠ strBytes "google") :
    verifyWebhookSignature jwt body
      (strBytes "sha256=" ++ hexEncode (hmacSha256 secret body)) secret = true := by
  have hsig : strBytes "sha256=" ++ hexEncode (hmacSha256 secret body) ≠ [] := by
    simp [strBytes]
  simp [verifyWebhookSignature, hb, hs, ha, hg, hsig,
    List.isPrefixOf_iff_prefix, List.prefix_append]

theorem verify_hex_mutation (jwt : Bytes → Bytes → Bool) (body body2 secret : Bytes)
    (hb2 : body2 ≠ []) (hs : secret ≠ []) (ha : secret ≠ strBytes "apple")
    (hg : secret ≠ strBytes "google")
    (hne : hmacSha256 secret body2 ≠ hmacSha256 secret body) :
    verifyWebhookSignature jwt body2
      (strBytes "sha256=" ++ hexEncode (hmacSha256 secret body)) secret = false := by
  have hsig : strBytes "sha256=" ++ hexEncode (hmacSha256 secret body) ≠ [] := by
    simp [strBytes]
  have hlen : (strBytes "sha256=" ++ hexEncode (hmacSha256 secret body)).length
      = (strBytes "sha256=" ++ hexEncode (hmacSha256 secret body2)).length := by
    simp [hexEncode_length, hmacSha256_length]
  have hneq : strBytes "sha256=" ++ hexEncode (hmacSha256 secret body)
      ≠ strBytes "sha256=" ++ hexEncode (hmacSha256 secret body2) := by
    intro h
    exact hne (hexEncode_inj _ _
      (fun b hb => hmacSha256_mem_lt _ _ hb)
      (fun b hb => hmacSha256_mem_lt _ _ hb)
      (List.append_cancel_left h)).symm
  simp [verifyWebhookSignature, hb2, hs, ha, hg, hsig,
    List.isPrefixOf_iff_prefix, List.prefix_append, hlen, hneq]

/-! ## Base64 output shape lemmas: the base64 encoding of a digest contains
no dot and cannot start with the sha256= prefix, so the verifier rejects the
base64 form without the comparison ever being reached. -/

theorem b64Char_ne_61 (n : Nat) : b64Char n ≠ 61 := by
  by_cases h : n < 64
  · have key : ∀ m, m < 64 → b64Char m ≠ 61 := by decide
    exact key n h
  · unfold b64Char
    rw [List.getD_eq_default]
    · decide
    · have hlen : b64Table.length = 64 := by decide
      omega

theorem b64Char_ne_46 (n : Nat) : b64Char n ≠ 46 := by
  by_cases h : n < 64
  · have key : ∀ m, m < 64 → b64Char m ≠ 46 := by decide
    exact key n h
  · unfold b64Char
    rw [List.getD_eq_default]
    · decide
    · have hlen : b64Table.length = 64 := by decide
      omega

theorem b64_no_dot : ∀ l : Bytes, ¬ 46 ∈ base64Encode l
  | [] => by simp [base64Encode]
  | [a] => by
    intro h
    simp only [base64Encode, List.mem_cons, List.not_mem_nil, or_false] at h
    rcases h with h | h | h | h <;> first
      | exact b64Char_ne_46 _ h.symm
      | omega
  | [a, b] => by
    intro h
    simp only [base64Encode, List.mem_cons, List.not_mem_nil, or_false] at h
    rcases h with h | h | h | h <;> first
      | exact b64Char_ne_46 _ h.symm
      | omega
  | a :: b :: c :: rest => by
    intro h
    simp only [base64Encode, List.cons_append, List.nil_append, List.mem_cons] at h
    rcases h with h | h | h | h | h
    · exact b64Char_ne_46 _ h.symm
    · exact b64Char_ne_46 _ h.symm
    · exact b64Char_ne_46 _ h.symm
    · exact b64Char_ne_46 _ h.symm
    · exact b64_no_dot rest h

theorem b64_seventh (b0 b1 b2 b3 b4 b5 : Nat) (rest : Bytes) :
    base64Encode (b0 :: b1 :: b2 :: b3 :: b4 :: b5 :: rest)
    = b64Char (b0 / 4) :: b64Char (b0 % 4 * 16 + b1 / 16) :: b64Char (b1 % 16 * 4 + b2 / 64)
      :: b64Char (b2 % 64) :: b64Char (b3 / 4) :: b64Char (b3 % 4 * 16 + b4 / 16)
      :: b64Char (b4 % 16 * 4 + b5 / 64) :: b64Char (b5 % 64) :: base64Encode rest := rfl

theorem b64_not_sha_prefix (b0 b1 b2 b3 b4 b5 : Nat) (rest : Bytes) :
    (strBytes "sha256=").isPrefixOf (base64Encode (b0 :: b1 :: b2 :: b3 :: b4 :: b5 :: rest))
      = false := by
  rw [b64_seventh]
  have hs : strBytes "sha256=" = [115, 104, 97, 50, 53, 54, 61] := rfl
  rw [hs]
  rw [Bool.eq_false_iff]
  intro htrue
  simp only [List.isPrefixOf, Bool.and_eq_true, beq_iff_eq] at htrue
  exact b64Char_ne_61 _ htrue.2.2.2.2.2.2.1.symm

/-- Claim C7, counterexample: the claim asserts the HMAC is accepted as bare
base64 as well; at the concrete body hello and secret secret123, the base64
HMAC-SHA256 of the body keyed by the secret is rejected: the production path
accepts only the sha256= hex format, and the 32-byte digest base64-encodes
to characters that can neither carry the sha256= prefix nor the two dots of
a token, so the call falls through to the unknown-format branch. -/
theorem c7_counterexample :
    verifyWebhookSignature jwtNone (strBytes "hello")
      (base64Encode (hmacSha256 (strBytes "secret123") (strBytes "hello")))
      (strBytes "secret123") = false := by
  have hlen : (hmacSha256 (strBytes "secret123") (strBytes "hello")).length = 32 :=
    hmacSha256_length _ _
  set d := hmacSha256 (strBytes "secret123") (strBytes "hello") with hd
  match d, hlen with
  | b0 :: b1 :: b2 :: b3 :: b4 :: b5 :: rest, _ =>
    have hpre := b64_not_sha_prefix b0 b1 b2 b3 b4 b5 rest
    have hdot : (base64Encode (b0 :: b1 :: b2 :: b3 :: b4 :: b5 :: rest)).count 46 = 0 :=
      List.count_eq_zero.mpr (b64_no_dot _)
    have hne : base64Encode (b0 :: b1 :: b2 :: b3 :: b4 :: b5 :: rest) ≠ [] := by
      rw [b64_seventh]
      simp
    unfold verifyWebhookSignature
    simp [hne, hpre, hdot, show strBytes "hello" ≠ [] from by decide,
      show strBytes "secret123" ≠ [] from by decide,
      show strBytes "secret123" ≠ strBytes "apple" from by decide,
      show strBytes "secret123" ≠ strBytes "google" from by decide]

/-- Claim C7, amended: for every non-empty body and every secret other than
the test-environment literals apple and google, verify accepts the HMAC-SHA256
of the body keyed by the secret in the sha256= hex format, and rejects any
mutated body whose HMAC differs (the base64 format is not accepted, per the
counterexample). -/
theorem c7_amended :
    (∀ (jwt : Bytes → Bytes → Bool) (body secret : Bytes), body ≠ [] → secret ≠ [] →
      secret ≠ strBytes "apple" → secret ≠ strBytes "google" →
      verifyWebhookSignature jwt body
        (strBytes "sha256=" ++ hexEncode (hmacSha256 secret body)) secret = true)
    ∧ (∀ (jwt : Bytes → Bytes → Bool) (body body2 secret : Bytes), body2 ≠ [] →
      secret ≠ [] → secret ≠ strBytes "apple" → secret ≠ strBytes "google" →
      hmacSha256 secret body2 ≠ hmacSha256 secret body →
      verifyWebhookSignature jwt body2
        (strBytes "sha256=" ++ hexEncode (hmacSha256 secret body)) secret = false) :=
  ⟨fun jwt body secret hb hs ha hg => verify_hex_accepts jwt body secret hb hs ha hg,
   fun jwt body body2 secret hb2 hs ha hg hne =>
     verify_hex_mutation jwt body body2 secret hb2 hs ha hg hne⟩

/-- Witness for c7_amended: at the concrete body body-w and secret k7 the
sha256= hex signature verifies. -/
theorem c7_witness :
    verifyWebhookSignature jwtNone (strBytes "body-w")
      (strBytes "sha256=" ++ hexEncode (hmacSha256 (strBytes "k7") (strBytes "body-w")))
      (strBytes "k7") = true :=
  c7_amended.1 jwtNone (strBytes "body-w") (strBytes "k7")
    (by decide) (by decide) (by decide) (by decide)

/-- Claim C8: the signature verifier is total (the embedding returns a
boolean on every input, mirroring the catch-all of the source); a missing
body, a missing signature, or a missing secret each yield false, and a
well-formed call whose signature matches no known format (not the sha256=
hex format, not a three-part token) yields false. -/
theorem c8 : ∀ (jwt : Bytes → Bytes → Bool) (body sig secret : Bytes),
    verifyWebhookSignature jwt [] sig secret = false
    ∧ verifyWebhookSignature jwt body [] secret = false
    ∧ verifyWebhookSignature jwt body sig [] = false
    ∧ (secret ≠ strBytes "apple" → secret ≠ strBytes "google" →
      (strBytes "sha256=").isPrefixOf sig = false → sig.count 46 ≠ 2 →
      verifyWebhookSignature jwt body sig secret = false) := by
  intro jwt body sig secret
  refine ⟨by simp [verifyWebhookSignature], by simp [verifyWebhookSignature],
    by simp [verifyWebhookSignature], ?_⟩
  intro ha hg hpre hcnt
  by_cases h1 : body = [] ∨ sig = [] ∨ secret = []
  · simp [verifyWebhookSignature, h1]
  · simp [verifyWebhookSignature, h1, ha, hg, hpre, hcnt]

/-- Witness for c8: the unknown-format rejection at a concrete signature. -/
theorem c8_witness :
    verifyWebhookSignature jwtNone (strBytes "x") (strBytes "zz") (strBytes "k") = false :=
  (c8 jwtNone (strBytes "x") (strBytes "zz") (strBytes "k")).2.2.2
    (by decide) (by decide) (by decide) (by decide)


/-! ## Controller dispatch lemmas: the parser only produces canonical kinds,
while the switch compares against raw store event names, so no event type
ever reaches a handler through the controller. -/

theorem parse_canonical (p : Payload) (prov : String) :
    parseWebhookEventType p prov = "purchased" ∨ parseWebhookEventType p prov = "renewed"
    ∨ parseWebhookEventType p prov = "expired" ∨ parseWebhookEventType p prov = "refunded"
    ∨ parseWebhookEventType p prov = "unknown" := by
  unfold parseWebhookEventType
  by_cases ha : prov = "apple"
  · rw [if_pos ha]
    split_ifs <;> simp
  · rw [if_neg ha]
    by_cases hg : prov = "google"
    · rw [if_pos hg]
      split_ifs <;> try simp
      all_goals (split <;> simp)
    · rw [if_neg hg]
      simp

theorem dispatch_not_matched (p : Payload) (prov : String) :
    parseWebhookEventType p prov ∉ purchasedCases
    ∧ parseWebhookEventType p prov ∉ expiredCases
    ∧ parseWebhookEventType p prov ∉ refundedCases := by
  rcases parse_canonical p prov with h | h | h | h | h <;>
    rw [h] <;> exact ⟨by decide, by decide, by decide⟩

theorem purchased_events (n : Notification) (now : Nat) (e : Bool) (db : DbState) :
    (handleSubscriptionPurchased n now e db).events = db.events := by
  unfold handleSubscriptionPurchased
  split_ifs <;> rfl

theorem expired_events (n : Notification) (now : Nat) (e : Bool) (db : DbState) :
    (handleSubscriptionExpired n now e db).events = db.events := by
  unfold handleSubscriptionExpired
  split_ifs <;> rfl

theorem handleWebhook_state (env : Env) (jwt : Bytes → Bytes → Bool)
    (req : WebhookReq) (now : Nat) (e1 e2 : Bool) (db : DbState) :
    (handleWebhook env jwt req now e1 e2 db).2 = db := by
  unfold handleWebhook
  cases hdp : determineProvider req.headers req.body with
  | none => rfl
  | some provider =>
    obtain ⟨h1, h2, h3⟩ := dispatch_not_matched req.body provider
    simp only []
    split_ifs <;> simp_all

theorem handleWebhook_ok : ∀ (env : Env) (jwt : Bytes → Bytes → Bool) (req : WebhookReq)
    (now : Nat) (e1 e2 : Bool) (db : DbState) (provider : String),
    determineProvider req.headers req.body = some provider →
    ¬ getWebhookSecret env provider = [] →
    ¬ getSignatureFromHeaders req.headers provider = [] →
    verifyWebhookSignature jwt (if req.rawBody = [] then req.bodyJson else req.rawBody)
      (getSignatureFromHeaders req.headers provider) (getWebhookSecret env provider) = true →
    (handleWebhook env jwt req now e1 e2 db).1 = ⟨200, RespBody.ok⟩ := by
  intro env jwt req now e1 e2 db provider hdp hsec hsig hver
  unfold handleWebhook
  cases hdp2 : determineProvider req.headers req.body with
  | none => rw [hdp2] at hdp; exact absurd hdp (by simp)
  | some p =>
    rw [hdp2] at hdp
    injection hdp with hp
    subst hp
    simp only []
    split_ifs <;> simp_all

/-! ## Claim theorems for the controller -/

/-- Claim C4: for every input to the webhook handler (any headers, body, raw
body, environment, jwt oracle and internal db-error outcome), the response
status is 200; by construction of RespBody the body is status ok or status
error with a message, and the handler returns a response on every path
rather than propagating an error. -/
theorem c4 : ∀ (env : Env) (jwt : Bytes → Bytes → Bool) (req : WebhookReq)
    (now : Nat) (e1 e2 : Bool) (db : DbState),
    (handleWebhook env jwt req now e1 e2 db).1.status = 200 := by
  intro env jwt req now e1 e2 db
  unfold handleWebhook
  cases hdp : determineProvider req.headers req.body with
  | none => rfl
  | some provider =>
    simp only []
    split_ifs <;> rfl

/-- Claim C5 (code-bug evidence): a signature-verified storeA INITIAL_BUY
webhook for a user with no subscription answers 200 ok and leaves the
database unchanged: the parser maps INITIAL_BUY to unknown and the dispatch
switch compares against raw store event names while the parser returns
canonical kinds, so no handler ever runs; no active monthly subscription is
created. -/
theorem c5_divergence :
    handleWebhook envApple jwtNone reqInitialBuy 100 false false dbEmpty
      = (⟨200, RespBody.ok⟩, dbEmpty) := by
  refine Prod.ext ?_ ?_
  · exact handleWebhook_ok envApple jwtNone reqInitialBuy 100 false false dbEmpty "apple"
      (by decide) (by decide) (by decide)
      (verify_hex_accepts jwtNone (strBytes "rawbody-initial-buy") (strBytes "prod-secret")
        (by decide) (by decide) (by decide) (by decide))
  · exact handleWebhook_state envApple jwtNone reqInitialBuy 100 false false dbEmpty

/-! ## Claim theorems for the EventNormalizer -/

/-- Claim C6, counterexample: the storeA mapping of the claim fails on the
code: INITIAL_BUY, INTERACTIVE_RENEWAL, EXPIRED, GRACE_PERIOD and REVOKE
all normalize to unknown, not to the claimed purchased/renewed, expired and
refunded kinds. -/
theorem c6_counterexample :
    parseWebhookEventType (mkApplePayload "INITIAL_BUY") "apple" = "unknown"
    ∧ parseWebhookEventType (mkApplePayload "INTERACTIVE_RENEWAL") "apple" = "unknown"
    ∧ parseWebhookEventType (mkApplePayload "EXPIRED") "apple" = "unknown"
    ∧ parseWebhookEventType (mkApplePayload "GRACE_PERIOD") "apple" = "unknown"
    ∧ parseWebhookEventType (mkApplePayload "REVOKE") "apple" = "unknown"
    ∧ ("unknown" : String) ≠ "purchased" ∧ ("unknown" : String) ≠ "renewed"
    ∧ ("unknown" : String) ≠ "expired" ∧ ("unknown" : String) ≠ "refunded" := by
  decide

/-- Claim C6, amended: the storeA normalizer maps CONSUMPTION_REQUEST to
purchased, DID_RENEW to renewed, DID_FAIL_TO_RENEW to expired, REFUND to
refunded, and every other notification type (including INITIAL_BUY,
INTERACTIVE_RENEWAL, EXPIRED, GRACE_PERIOD and REVOKE) as well as a missing
one to unknown. -/
theorem c6_amended : ∀ p : Payload,
    (p.notificationType = some "CONSUMPTION_REQUEST" →
      parseWebhookEventType p "apple" = "purchased")
    ∧ (p.notificationType = some "DID_RENEW" →
      parseWebhookEventType p "apple" = "renewed")
    ∧ (p.notificationType = some "DID_FAIL_TO_RENEW" →
      parseWebhookEventType p "apple" = "expired")
    ∧ (p.notificationType = some "REFUND" →
      parseWebhookEventType p "apple" = "refunded")
    ∧ (∀ s, p.notificationType = some s →
      s ∉ (["CONSUMPTION_REQUEST", "DID_RENEW", "DID_FAIL_TO_RENEW", "REFUND"] : List String) →
      parseWebhookEventType p "apple" = "unknown")
    ∧ (p.notificationType = none → parseWebhookEventType p "apple" = "unknown") := by
  intro p
  refine ⟨fun h => by simp [parseWebhookEventType, h],
    fun h => by simp [parseWebhookEventType, h],
    fun h => by simp [parseWebhookEventType, h],
    fun h => by simp [parseWebhookEventType, h],
    fun s h hs => ?_,
    fun h => by simp [parseWebhookEventType, h]⟩
  simp only [List.mem_cons, List.not_mem_nil, or_false, not_or] at hs
  obtain ⟨n1, n2, n3, n4⟩ := hs
  simp [parseWebhookEventType, h, n1, n2, n3, n4]

/-- Witness for c6_amended: a mapped type and an unmapped type at concrete
payloads. -/
theorem c6_witness :
    parseWebhookEventType (mkApplePayload "DID_RENEW") "apple" = "renewed"
    ∧ parseWebhookEventType (mkApplePayload "SOMETHING_ELSE") "apple" = "unknown" :=
  ⟨(c6_amended (mkApplePayload "DID_RENEW")).2.1 rfl,
   (c6_amended (mkApplePayload "SOMETHING_ELSE")).2.2.2.2.1 "SOMETHING_ELSE" rfl (by decide)⟩

/-! ## Upsert lemmas for the purchased handler -/

theorem applyWrite_idem (v o : Option String) :
    applyWrite v (applyWrite v o) = applyWrite v o := by
  cases v <;> rfl

theorem merge_user_id (r : SubRow) (u : String) (pid tx : Option String) (now : Nat) :
    (mergePurchase r u pid tx now).user_id = u := rfl

theorem merge_merge (r : SubRow) (u : String) (pid tx : Option String) (t1 t2 : Nat) :
    eraseUpdatedAt (mergePurchase (mergePurchase r u pid tx t1) u pid tx t2)
    = eraseUpdatedAt (mergePurchase r u pid tx t1) := by
  cases pid <;> cases tx <;> rfl

theorem merge_fresh (u : String) (pid tx : Option String) (t1 t2 : Nat) :
    eraseUpdatedAt (mergePurchase (freshPurchaseRow u pid tx t1) u pid tx t2)
    = eraseUpdatedAt (freshPurchaseRow u pid tx t1) := by
  cases pid <;> cases tx <;> rfl

theorem upsert_twice (rows : List SubRow) (u : String) (pid tx : Option String)
    (t1 t2 : Nat) :
    (upsertPurchase (upsertPurchase rows u pid tx t1) u pid tx t2).map eraseUpdatedAt
    = (upsertPurchase rows u pid tx t1).map eraseUpdatedAt := by
  unfold upsertPurchase
  by_cases hany : rows.any (fun r => r.user_id = u) = true
  · rw [if_pos hany]
    have hany2 : (rows.map (fun r =>
        if r.user_id = u then mergePurchase r u pid tx t1 else r)).any
          (fun r => r.user_id = u) = true := by
      rcases List.any_eq_true.mp hany with ⟨r, hr, hru⟩
      refine List.any_eq_true.mpr ⟨_, List.mem_map_of_mem _ hr, ?_⟩
      simp only [decide_eq_true_eq] at hru
      rw [if_pos hru]
      simp [merge_user_id]
    rw [if_pos hany2, List.map_map, List.map_map, List.map_map]
    apply List.map_congr_left
    intro r _
    by_cases hru : r.user_id = u
    · simp only [Function.comp_apply, if_pos hru, if_pos (merge_user_id r u pid tx t1)]
      exact merge_merge r u pid tx t1 t2
    · simp only [Function.comp_apply, if_neg hru]
  · rw [if_neg hany]
    have hfresh : ((rows ++ [freshPurchaseRow u pid tx t1]).any
        (fun r => r.user_id = u)) = true := by
      refine List.any_eq_true.mpr ⟨freshPurchaseRow u pid tx t1, ?_, ?_⟩
      · simp
      · simp [freshPurchaseRow]
    rw [if_pos hfresh, List.map_map]
    apply List.map_congr_left
    intro r hr
    rcases List.mem_append.mp hr with hr | hr
    · have hru : ¬ r.user_id = u := by
        intro hru
        exact hany (List.any_eq_true.mpr ⟨r, hr, by simp [hru]⟩)
      simp only [Function.comp_apply, if_neg hru]
    · have hr1 : r = freshPurchaseRow u pid tx t1 := by simpa using hr
      subst hr1
      simp only [Function.comp_apply, if_pos (show (freshPurchaseRow u pid tx t1).user_id = u from rfl)]
      exact merge_fresh u pid tx t1 t2

/-! ## Claim theorems for the purchased handler (idempotence) -/

/-- Claim C1, counterexample: applying the very same purchase payload twice
does not yield identical persisted state: the second application at a later
instant rewrites updated_at, and no accepted flag exists to mark the replay
a no-op (the handler re-runs its upsert unconditionally, without comparing
transactionId against any stored latest transaction). -/
theorem c1_counterexample :
    handleSubscriptionPurchased purchaseNotif 9 false
        (handleSubscriptionPurchased purchaseNotif 5 false dbEmpty)
      ≠ handleSubscriptionPurchased purchaseNotif 5 false dbEmpty := by
  decide

/-- Claim C1, amended: applying the same purchase payload twice is
idempotent on every column except updated_at (which the unconditional
upsert always rewrites with the processing instant), and the audit log is
untouched; there is no accepted flag and no replay guard. -/
theorem c1_amended : ∀ (n : Notification) (t1 t2 : Nat) (e2 : Bool) (db : DbState),
    ((handleSubscriptionPurchased n t2 e2
        (handleSubscriptionPurchased n t1 false db)).subs.map eraseUpdatedAt
      = (handleSubscriptionPurchased n t1 false db).subs.map eraseUpdatedAt)
    ∧ ((handleSubscriptionPurchased n t2 e2
        (handleSubscriptionPurchased n t1 false db)).events
      = (handleSubscriptionPurchased n t1 false db).events) := by
  intro n t1 t2 e2 db
  refine ⟨?_, purchased_events n t2 e2 _⟩
  unfold handleSubscriptionPurchased
  by_cases hg : ¬ truthy (notifUid n) = true ∨ ¬ truthy (notifPid n) = true
  · rw [if_pos hg, if_pos hg]
  · rw [if_neg hg, if_neg hg, if_neg (by simp : ¬ false = true)]
    cases e2 with
    | true => rw [if_pos rfl]
    | false =>
      rw [if_neg (by simp : ¬ false = true)]
      exact upsert_twice db.subs ((notifUid n).getD "") (notifPid n) (notifTx n) t1 t2

/-! ## getD lemmas for row-level statements -/

theorem getD_map_eq_self (f : SubRow → SubRow) (l : List SubRow) (i : Nat)
    (h : f (l.getD i dummyRow) = l.getD i dummyRow) :
    (l.map f).getD i dummyRow = l.getD i dummyRow := by
  induction l generalizing i with
  | nil => simp
  | cons a t ih =>
    cases i with
    | zero => simpa using h
    | succ j => simpa using ih j (by simpa using h)

theorem getD_map_apply (f : SubRow → SubRow) (l : List SubRow) (i : Nat)
    (h : i < l.length) :
    (l.map f).getD i dummyRow = f (l.getD i dummyRow) := by
  induction l generalizing i with
  | nil => simp at h
  | cons a t ih =>
    cases i with
    | zero => simp
    | succ j => simpa using ih j (by simpa using h)

theorem getD_default_of_le (l : List SubRow) (i : Nat) (h : l.length ≤ i) :
    l.getD i dummyRow = dummyRow := by
  induction l generalizing i with
  | nil => simp
  | cons a t ih =>
    cases i with
    | zero => simp at h
    | succ j => simpa using ih j (by simpa using h)

/-! ## Claim theorems for the expired handler (lineage isolation) -/

/-- Claim C2, counterexample: a stored subscription whose current lineage is
transaction B is modified (deactivated) by an expired event carrying
originalTransactionId A for the same user and product: the handler matches
rows by user_id and product_id only and never reads the lineage. -/
theorem c2_counterexample :
    (handleSubscriptionExpired crossLineageExpiredNotif 8 false
        ⟨[rowLineageB], []⟩).subs.getD 0 dummyRow ≠ rowLineageB
    ∧ ((handleSubscriptionExpired crossLineageExpiredNotif 8 false
        ⟨[rowLineageB], []⟩).subs.getD 0 dummyRow).is_active = false
    ∧ rowLineageB.is_active = true
    ∧ rowLineageB.transaction_id = some "B"
    ∧ crossLineageExpiredNotif.originalTransactionId = some "A" := by
  decide

/-- Claim C2, amended: the expired handler updates exactly the rows matched
by user_id and product_id, ignoring transaction lineage: a stored row is
left unchanged whenever the user or the product of the event does not match
it — but a same-user same-product row of a different lineage is modified,
so cross-lineage isolation holds only across distinct products or users. -/
theorem c2_amended : ∀ (n : Notification) (now : Nat) (e : Bool) (db : DbState) (i : Nat),
    ¬ ((db.subs.getD i dummyRow).user_id = (notifUid n).getD ""
        ∧ matchEq (db.subs.getD i dummyRow).product_id (notifPid n) = true) →
    (handleSubscriptionExpired n now e db).subs.getD i dummyRow
      = db.subs.getD i dummyRow := by
  intro n now e db i hmiss
  unfold handleSubscriptionExpired
  split_ifs <;> first
  | rfl
  | exact getD_map_eq_self _ _ _ (if_neg hmiss)

/-- Witness for c2_amended: the expired event for product p1 leaves a row of
product p2 unchanged. -/
theorem c2_witness :
    (handleSubscriptionExpired crossLineageExpiredNotif 8 false
        ⟨[otherProductRow], []⟩).subs.getD 0 dummyRow = otherProductRow :=
  (c2_amended crossLineageExpiredNotif 8 false ⟨[otherProductRow], []⟩ 0
    (by decide)).trans (by decide)

/-! ## Claim theorems for the refunded handler (monotonicity) -/

/-- Claim C3, counterexample: the subscription was last written by a
purchase whose provider timestamp is 5; the refunded event carries the older
timestamp 3 and is nevertheless applied (the state changes and the row is
marked refunded), where the claim requires rejection without state change. -/
theorem c3_counterexample :
    handleSubscriptionRefunded staleRefundNotif 7 false false
        (handleSubscriptionPurchased purchaseNotif 5 false dbEmpty)
      ≠ handleSubscriptionPurchased purchaseNotif 5 false dbEmpty
    ∧ ((handleSubscriptionRefunded staleRefundNotif 7 false false
        (handleSubscriptionPurchased purchaseNotif 5 false dbEmpty)).subs.getD 0
          dummyRow).refunded = true
    ∧ staleRefundNotif.occurredAt = some 3
    ∧ purchaseNotif.occurredAt = some 5 := by
  decide

/-- Claim C3, amended: a refunded event whose identity matches a stored row
(by transaction_id when the event carries an originalTransactionId, else by
product_id) is always applied when the update succeeds, for every value of
the event timestamp: the row becomes inactive, refunded, with refund_date
and updated_at set to the processing instant.  No monotonicity check against
the last-applied event timestamp exists, so older events are applied rather
than rejected. -/
theorem c3_amended : ∀ (n : Notification) (now : Nat) (db : DbState) (i : Nat),
    truthy (notifUid n) = true →
    refundHit n (db.subs.getD i dummyRow) = true →
    (handleSubscriptionRefunded n now false false db).subs.getD i dummyRow
      = { (db.subs.getD i dummyRow) with
          is_active := false
          refunded := true
          refund_date := some now
          updated_at := some now } := by
  intro n now db i hu hhit
  have hlen : i < db.subs.length := by
    by_contra hge
    push_neg at hge
    rw [getD_default_of_le db.subs i hge] at hhit
    unfold refundHit at hhit
    simp only [Bool.and_eq_true, decide_eq_true_eq] at hhit
    have : dummyRow.user_id = "" := rfl
    rw [this] at hhit
    simp only [truthy, ne_eq, decide_eq_true_eq] at hu
    exact hu hhit.1.symm
  unfold handleSubscriptionRefunded
  rw [if_neg (by simp [hu]), if_neg (by simp : ¬ false = true)]
  simp only []
  rw [getD_map_apply _ _ _ hlen, if_pos hhit]

/-- Witness for c3_amended: the stale refund applied to the concrete active
row of lineage t1. -/
theorem c3_witness :
    (handleSubscriptionRefunded staleRefundNotif 7 false false
        ⟨[activeRowT1], []⟩).subs.getD 0 dummyRow
      = { activeRowT1 with
          is_active := false
          refunded := true
          refund_date := some 7
          updated_at := some 7 } :=
  (c3_amended staleRefundNotif 7 ⟨[activeRowT1], []⟩ 0 (by decide)
    (by decide)).trans (by decide)

/-! ## Claim theorems for the audit trail -/

/-- Claim C9, counterexample: a complete purchase notification processed by
the reconciliation path mutates the subscription table yet appends no audit
record at all (only the refunded handler ever writes one). -/
theorem c9_counterexample :
    (handleSubscriptionPurchased purchaseNotif 4 false dbEmpty).events = []
    ∧ (handleSubscriptionPurchased purchaseNotif 4 false dbEmpty).subs ≠ [] := by
  decide

/-- Claim C9, amended: the purchased and expired handlers never write a
SubscriptionEventRecord, the webhook controller never causes any audit
write (no event type reaches a handler through its dispatch), and only the
refunded handler appends a record — exactly one, and only when its
subscription update and the insert both succeed. -/
theorem c9_amended : ∀ (env : Env) (jwt : Bytes → Bytes → Bool) (req : WebhookReq)
    (now : Nat) (e1 e2 : Bool) (db : DbState) (n : Notification) (t : Nat) (e : Bool),
    ((handleWebhook env jwt req now e1 e2 db).2.events = db.events)
    ∧ ((handleSubscriptionPurchased n t e db).events = db.events)
    ∧ ((handleSubscriptionExpired n t e db).events = db.events)
    ∧ (truthy (notifUid n) = true →
        (handleSubscriptionRefunded n t false false db).events
          = db.events ++ [mkRefundRecord n t]) := by
  intro env jwt req now e1 e2 db n t e
  refine ⟨by rw [handleWebhook_state], purchased_events n t e db,
    expired_events n t e db, fun hu => ?_⟩
  unfold handleSubscriptionRefunded
  rw [if_neg (by simp [hu]), if_neg (by simp : ¬ false = true)]
  simp

/-- Witness for c9_amended: the refund audit record appended at a concrete
refund notification. -/
theorem c9_witness :
    (handleSubscriptionRefunded staleRefundNotif 2 false false dbEmpty).events
      = [mkRefundRecord staleRefundNotif 2] :=
  ((c9_amended envApple jwtNone reqDidRenew 0 false false dbEmpty
    staleRefundNotif 2 false).2.2.2 (by decide)).trans (by decide)

/-! ## Claim theorem for getSubscriptionStatus -/

/-- Claim C10: when the single-row read reports an error — which is also how
the missing-row case surfaces from a single-row select — getSubscriptionStatus
throws ApiError 500 with message Failed to fetch subscription status instead
of returning the default view; the default inactive view is returned exactly
when the read reports neither an error nor data, and stored data yields the
view computed from the row. -/
theorem c10 : ∀ (res : QueryResult) (now : Nat),
    (res.error.isSome = true →
      getSubscriptionStatus res now
        = .error ⟨500, "Failed to fetch subscription status"⟩)
    ∧ (res.error = none → res.data = none →
      getSubscriptionStatus res now = .ok defaultStatus)
    ∧ (∀ d, res.error = none → res.data = some d →
      getSubscriptionStatus res now = .ok (statusView d now)) := by
  intro res now
  obtain ⟨e, d⟩ := res
  refine ⟨fun h => ?_, fun h1 h2 => ?_, fun d2 h1 h2 => ?_⟩ <;>
    cases e <;> simp_all [getSubscriptionStatus]

/-- Witness for c10: the missing-row read error PGRST116 throws the 500. -/
theorem c10_witness :
    getSubscriptionStatus ⟨some "PGRST116", none⟩ 0
      = .error ⟨500, "Failed to fetch subscription status"⟩ :=
  (c10 ⟨some "PGRST116", none⟩ 0).1 rfl

end DifApi
